import Mathlib

/-!
Verification development for the streaming transcription pipeline
(src/transcriptor/pipeline/streaming.py).

The pipeline orchestrator is embedded shallowly: the durable state store is a
function from (file identity, stage) to an optional stage record, each worker
loop body becomes a pure step function from a dequeued token and a store to an
updated store plus the forwarded tokens and callback invocations, and the
external collaborators (preprocessor, VAD, transcriber, aligner, diarizer) are
opaque function parameters, modelled only by their argument/return contracts.
Python float times are modelled as rationals; Python truthiness tests on
optional strings and lists are modelled explicitly.
-/

/-- The stages of StreamingPipeline, mirroring the ProcessingStage enum
(streaming.py lines 25-33).  The enum member EXTRACT_AUDIO is named extract
here, VAD_SEGMENTATION is vad_segmentation, MERGE_SEGMENTS is merge_segments,
and EXPORT is exportStage (export is a Lean keyword). -/
inductive ProcessingStage where
  | extract
  | vad_segmentation
  | transcription
  | alignment
  | diarization
  | merge_segments
  | exportStage
  deriving DecidableEq

/-- One speaker interval produced by the diarizer, as stored in the
DIARIZATION stage record: a dict with keys start, end and speaker.
The field named end in the source is named stop here (end is a Lean
keyword). -/
structure DiarizationSegment where
  start : Rat
  stop : Rat
  speaker : String
  deriving DecidableEq

/-- One recognized text segment with its timing, as flattened by the
alignment worker (streaming.py lines 526-531): a dict with keys text,
start and end. -/
structure TranscriptionSegment where
  text : String
  start : Rat
  stop : Rat
  deriving DecidableEq

/-- The transcriber result for one sub-clip: a detected language and a list
of recognized segments (the fields the alignment worker reads at
streaming.py lines 521-531). -/
structure TranscriptionResult where
  language : String
  segments : List TranscriptionSegment
  deriving DecidableEq

/-- One entry of the TRANSCRIPTION stage result (streaming.py lines 454-457):
the sub-clip path together with the recognition result for it. -/
structure TranscriptionItem where
  segment_path : String
  result : TranscriptionResult
  deriving DecidableEq

/-- One aligned word, as read by the merge worker (streaming.py lines
685-692): keys start, end (named stop here) and, after the merge, speaker.
The speaker field is none before the merge assigns it. -/
structure Word where
  start : Rat
  stop : Rat
  text : String
  speaker : Option String := none
  deriving DecidableEq

/-- One aligned segment, as read by the merge worker: the merge checks
whether the key words is present (streaming.py line 684), so words is an
optional list here. -/
structure AlignedSegment where
  text : String
  start : Rat
  stop : Rat
  words : Option (List Word) := none
  deriving DecidableEq

/-- The stage-specific result payload of a stage record (the result field of
ProcessingState, an untyped value in the source): the extraction stage stores
the processed asset path, VAD a list of sub-clip paths, transcription a list
of per-sub-clip results, diarization a list of speaker intervals, and
alignment, merge and export a list of aligned segments. -/
inductive StageResult where
  | audioPath (p : String)
  | segmentPaths (paths : List String)
  | transcriptions (items : List TranscriptionItem)
  | diarSegments (segs : List DiarizationSegment)
  | alignedSegments (segs : List AlignedSegment)
  deriving DecidableEq

/-- The durable per-(file, stage) record, mirroring the ProcessingState
dataclass (streaming.py lines 35-44).  status is one of the strings pending,
running, completed, failed; progress is a real number in the unit interval
(a rational here); result is present only for completed records and error
only for failed ones. -/
structure ProcessingState where
  file_path : String
  stage : ProcessingStage
  status : String
  progress : Rat
  result : Option StageResult := none
  error : Option String := none
  timestamp : Rat := 0
  deriving DecidableEq

/-- The durable state store, keyed by (file identity, stage): the states
directory of JSON files addressed by get_state_file_path, one record per
key, full overwrites only. -/
def Store : Type := String → ProcessingStage → Option ProcessingState

/-- Writing one record to the store: a full overwrite at the key derived
from the record itself, leaving every other key unchanged. -/
def Store.put (s : Store) (st : ProcessingState) : Store :=
  fun fp stage =>
    if fp = st.file_path ∧ stage = st.stage then some st else s fp stage

theorem Store.put_lookup (s : Store) (st : ProcessingState) (fp : String)
    (stage : ProcessingStage) :
    Store.put s st fp stage =
      if fp = st.file_path ∧ stage = st.stage then some st else s fp stage :=
  rfl

/-- StreamingPipeline.load_state (streaming.py lines 194-217): fetch the
record for a (file, stage) key, or none when absent. -/
def load_state (store : Store) (file_path : String) (stage : ProcessingStage) :
    Option ProcessingState :=
  store file_path stage

/-- StreamingPipeline.save_state (streaming.py lines 179-192).  The write is
attempted; ioOk models whether the underlying file I/O succeeds.  On failure
the source catches every exception and only logs it (line 191-192), so the
caller receives no error in either case: the second component is the error
visible to the caller, and it is always none. -/
def save_state (store : Store) (state : ProcessingState) (ioOk : Bool) :
    Store × Option String :=
  if ioOk then (Store.put store state, none) else (store, none)

/-- The idempotent-skip test used by every worker (the pattern
state and state.status equals completed). -/
def isCompleted : Option ProcessingState → Bool
  | some st => st.status = "completed"
  | none => false

/-- Python truthiness of an optional string (used on the preprocessor result
at streaming.py line 280): falsy when absent or empty. -/
def truthyStr : Option String → Bool
  | none => false
  | some s => !(s == "")

/-- Python truthiness of an optional list (used on the aligner result at
streaming.py line 540 and the diarizer result at line 612): falsy when
absent or empty. -/
def truthyList {α : Type} : Option (List α) → Bool
  | none => false
  | some l => !l.isEmpty

/-- Kernel-reducible rational addition.  The Batteries field operations on
Rat are irreducible, so concrete runs of the embedded workers could not be
evaluated through them; the worker definitions therefore use these mkRat
based operations, proved equal to the field operations below. -/
def ratAdd (a b : Rat) : Rat := mkRat (a.num * b.den + b.num * a.den) (a.den * b.den)

/-- Kernel-reducible rational subtraction, see ratAdd. -/
def ratSub (a b : Rat) : Rat := mkRat (a.num * b.den - b.num * a.den) (a.den * b.den)

/-- Kernel-reducible halving, see ratAdd. -/
def ratHalf (a : Rat) : Rat := mkRat a.num (2 * a.den)

theorem ratAdd_eq (a b : Rat) : ratAdd a b = a + b := by
  rw [ratAdd, Rat.mkRat_eq_div]
  have ha : ((a.den : Rat)) ≠ 0 := by exact_mod_cast a.den_nz
  have hb : ((b.den : Rat)) ≠ 0 := by exact_mod_cast b.den_nz
  conv_rhs => rw [← Rat.num_div_den a, ← Rat.num_div_den b]
  push_cast
  field_simp

theorem ratSub_eq (a b : Rat) : ratSub a b = a - b := by
  rw [ratSub, Rat.mkRat_eq_div]
  have ha : ((a.den : Rat)) ≠ 0 := by exact_mod_cast a.den_nz
  have hb : ((b.den : Rat)) ≠ 0 := by exact_mod_cast b.den_nz
  conv_rhs => rw [← Rat.num_div_den a, ← Rat.num_div_den b]
  push_cast
  field_simp
  ring

theorem ratHalf_eq (a : Rat) : ratHalf a = a / 2 := by
  rw [ratHalf, Rat.mkRat_eq_div]
  conv_rhs => rw [← Rat.num_div_den a]
  push_cast
  rw [div_div, mul_comm]

/-- Insertion into the speaker-timeline dict (the comprehension at
streaming.py line 679), with CPython dict semantics: a repeated key keeps
the position of its first insertion and takes the value of its last
insertion; a fresh key is appended. -/
def dictInsert (kvs : List ((Rat × Rat) × String)) (k : Rat × Rat) (v : String) :
    List ((Rat × Rat) × String) :=
  match kvs with
  | [] => [(k, v)]
  | p :: rest => if p.1 = k then (k, v) :: rest else p :: dictInsert rest k v

/-- The speaker timeline built by the merge worker (streaming.py line 679):
a dict keyed by the (start, end) span of each diarization interval, mapping
to the speaker label. -/
def speakerTimeline (segs : List DiarizationSegment) :
    List ((Rat × Rat) × String) :=
  segs.foldl (fun acc seg => dictInsert acc (seg.start, seg.stop) seg.speaker) []

/-- Dict lookup on the timeline: the value stored at a key, if present. -/
def assocLookup : List ((Rat × Rat) × String) → (Rat × Rat) → Option String
  | [], _ => none
  | p :: rest, k => if p.1 = k then some p.2 else assocLookup rest k

/-- The first-match scan of the merge worker (streaming.py lines 687-691):
walk the timeline in iteration order and return the label of the first span
containing m, defaulting to the sentinel UNKNOWN. -/
def firstSpeaker (m : Rat) : List ((Rat × Rat) × String) → String
  | [] => "UNKNOWN"
  | (span, speaker) :: rest =>
    if span.1 ≤ m ∧ m ≤ span.2 then speaker else firstSpeaker m rest

/-- The temporal midpoint of a word (streaming.py line 686), written with
the kernel-reducible operations; wordMidPoint_eq below states the textbook
form start plus half the span, exactly as in the source. -/
def wordMidPoint (w : Word) : Rat :=
  ratAdd w.start (ratHalf (ratSub w.stop w.start))

theorem wordMidPoint_eq (w : Word) :
    wordMidPoint w = w.start + (w.stop - w.start) / 2 := by
  rw [wordMidPoint, ratAdd_eq, ratHalf_eq, ratSub_eq]

/-- Speaker assignment for one word (streaming.py lines 686-692). -/
def assignSpeaker (timeline : List ((Rat × Rat) × String)) (w : Word) : Word :=
  { w with speaker := some (firstSpeaker (wordMidPoint w) timeline) }

/-- The merge transform (streaming.py lines 682-693): every segment that has
a words list gets a speaker attached to each word; segments without words
pass through unchanged. -/
def mergeSegments (timeline : List ((Rat × Rat) × String))
    (segs : List AlignedSegment) : List AlignedSegment :=
  segs.map (fun segment =>
    match segment.words with
    | some ws => { segment with words := some (ws.map (assignSpeaker timeline)) }
    | none => segment)

example :
    firstSpeaker (mkRat 3 2) [((0, mkRat 3 2), "A"), ((mkRat 3 2, 3), "B")] = "A" := by
  decide

example :
    wordMidPoint { start := 1, stop := 2, text := "w" } = mkRat 3 2 := by
  decide

/-- The outcome of one worker-loop iteration for one dequeued token: the
updated store, the tokens put on the next stage queue, the progress-callback
invocations in order, whether the stage collaborator was invoked for the
token, the completion-callback invocations (export only), and whether the
loop body raised an exception that the loop-level handler caught (streaming.py
lines 303-305 and the analogous handler of every worker). -/
structure StepOut where
  store : Store
  forwarded : List String
  events : List ProcessingState := []
  collaboratorCalled : Bool := false
  completions : List (String × Option StageResult) := []
  exn : Bool := false

/-- StreamingPipeline.start_processing (streaming.py lines 219-241): write an
initial pending EXTRACT_AUDIO record for the file and enqueue its token on the
extraction queue (the enqueue is modelled by the caller running
extraction_step next). -/
def start_processing (store : Store) (file_path : String) (t : Rat) : Store :=
  Store.put store
    { file_path := file_path, stage := ProcessingStage.extract,
      status := "pending", progress := 0, timestamp := t }

/-- One iteration of StreamingPipeline._extraction_worker (streaming.py lines
243-305) for a dequeued token.  The collaborator process_audio_pipeline
(AudioPreprocessor) yields the processed asset path or none; the source tests
the result with plain truthiness, so an empty path string also counts as
failure. -/
def extraction_step (process_audio_pipeline : String → Option String)
    (store : Store) (file_path : String) (t : Rat) : StepOut :=
  if isCompleted (load_state store file_path ProcessingStage.extract) then
    { store := store, forwarded := [file_path] }
  else
    let running : ProcessingState :=
      { file_path := file_path, stage := ProcessingStage.extract,
        status := "running", progress := 0, timestamp := t }
    let store1 := Store.put store running
    let processed_path := process_audio_pipeline file_path
    if truthyStr processed_path then
      let done : ProcessingState :=
        { running with
          status := "completed", progress := 1,
          result := some (StageResult.audioPath (processed_path.getD "")),
          timestamp := t }
      { store := Store.put store1 done, forwarded := [file_path],
        events := [running, done], collaboratorCalled := true }
    else
      let failed : ProcessingState :=
        { running with
          status := "failed",
          error := some "Audio extraction failed", timestamp := t }
      { store := Store.put store1 failed, forwarded := [],
        events := [running, failed], collaboratorCalled := true }

/-- One iteration of StreamingPipeline._vad_worker (streaming.py lines
307-381).  The collaborator segment_audio (SileroVAD) receives the raw result
of the EXTRACT_AUDIO record, as the source passes extract_state.result
through; its result is compared against None only, so an empty segment list
is a success. -/
def vad_step (segment_audio : Option StageResult → Option (List String))
    (store : Store) (file_path : String) (t : Rat) : StepOut :=
  if isCompleted (load_state store file_path ProcessingStage.vad_segmentation) then
    { store := store, forwarded := [file_path] }
  else
    match load_state store file_path ProcessingStage.extract with
    | none => { store := store, forwarded := [] }
    | some extract_state =>
      if extract_state.status = "completed" then
        let running : ProcessingState :=
          { file_path := file_path, stage := ProcessingStage.vad_segmentation,
            status := "running", progress := 0, timestamp := t }
        let store1 := Store.put store running
        match segment_audio extract_state.result with
        | some segments =>
          let done : ProcessingState :=
            { running with
          status := "completed", progress := 1,
              result := some (StageResult.segmentPaths segments), timestamp := t }
          { store := Store.put store1 done, forwarded := [file_path],
            events := [running, done], collaboratorCalled := true }
        | none =>
          let failed : ProcessingState :=
            { running with
          status := "failed",
              error := some "VAD segmentation failed", timestamp := t }
          { store := Store.put store1 failed, forwarded := [],
            events := [running, failed], collaboratorCalled := true }
      else { store := store, forwarded := [] }

/-- The per-sub-clip loop of the transcription worker (streaming.py lines
436-457): for each sub-clip, write a running record with fractional progress
(i over total, an exact rational here, standing for the float division of the
source), invoke the progress callback, call the transcriber, and keep the
result only when it is truthy (non-None). -/
def transcription_loop (transcribe : String → Option TranscriptionResult)
    (base : ProcessingState) (total : Nat) :
    List String → Nat → Store → List ProcessingState → List TranscriptionItem →
      Store × List ProcessingState × List TranscriptionItem
  | [], _, store, events, acc => (store, events, acc)
  | segment_path :: rest, i, store, events, acc =>
    let st := { base with progress := mkRat i total }
    let store1 := Store.put store st
    let events1 := events ++ [st]
    let acc1 :=
      match transcribe segment_path with
      | some r => acc ++ [{ segment_path := segment_path, result := r }]
      | none => acc
    transcription_loop transcribe base total rest (i + 1) store1 events1 acc1

/-- One iteration of StreamingPipeline._transcription_worker (streaming.py
lines 383-474) for a dequeued token.  The worker has no failure branch: after
the loop over sub-clips it always writes a completed record holding whatever
transcriptions were collected, even when every transcriber call returned
none, and always forwards the token. -/
def transcription_step (transcribe : String → Option TranscriptionResult)
    (store : Store) (file_path : String) (t : Rat) : StepOut :=
  if isCompleted (load_state store file_path ProcessingStage.transcription) then
    { store := store, forwarded := [file_path] }
  else
    match load_state store file_path ProcessingStage.vad_segmentation with
    | none => { store := store, forwarded := [] }
    | some vad_state =>
      if vad_state.status = "completed" then
        let running : ProcessingState :=
          { file_path := file_path, stage := ProcessingStage.transcription,
            status := "running", progress := 0, timestamp := t }
        let store1 := Store.put store running
        match vad_state.result with
        | some (StageResult.segmentPaths segment_paths) =>
          let out := transcription_loop transcribe running segment_paths.length
            segment_paths 0 store1 [running] []
          let done : ProcessingState :=
            { running with
          status := "completed", progress := 1,
              result := some (StageResult.transcriptions out.2.2), timestamp := t }
          { store := Store.put out.1 done, forwarded := [file_path],
            events := out.2.1 ++ [done],
            collaboratorCalled := !segment_paths.isEmpty }
        | _ => { store := store1, forwarded := [], events := [running], exn := true }
      else { store := store, forwarded := [] }

/-- Python truthiness of the running language variable of the alignment
worker (streaming.py line 523): falsy when still None or the empty string. -/
def truthyLang : Option String → Bool
  | none => false
  | some s => !(s == "")

/-- The language picked by the alignment worker (streaming.py lines 520-524):
the language of the first item whose turn finds the variable still falsy. -/
def pickLanguage (items : List TranscriptionItem) : Option String :=
  items.foldl
    (fun language item =>
      if truthyLang language then language else some item.result.language)
    none

/-- One iteration of StreamingPipeline._alignment_worker (streaming.py lines
476-560) for a dequeued token.  The upstream guard only checks that both the
TRANSCRIPTION and EXTRACT_AUDIO records exist and that the transcription one
is completed; the extraction status is never checked (line 500).  The aligner
result is tested with plain truthiness (line 540), so an empty aligned list
is treated as a failure. -/
def alignment_step
    (align_words :
      List TranscriptionSegment → Option StageResult → Option String →
        Option (List AlignedSegment))
    (store : Store) (file_path : String) (t : Rat) : StepOut :=
  if isCompleted (load_state store file_path ProcessingStage.alignment) then
    { store := store, forwarded := [file_path] }
  else
    match load_state store file_path ProcessingStage.transcription,
        load_state store file_path ProcessingStage.extract with
    | some transcription_state, some audio_state =>
      if transcription_state.status = "completed" then
        let running : ProcessingState :=
          { file_path := file_path, stage := ProcessingStage.alignment,
            status := "running", progress := 0, timestamp := t }
        let store1 := Store.put store running
        match transcription_state.result with
        | some (StageResult.transcriptions items) =>
          let all_segments := items.flatMap (fun item => item.result.segments)
          let language := pickLanguage items
          let aligned_result := align_words all_segments audio_state.result language
          if truthyList aligned_result then
            let done : ProcessingState :=
              { running with
          status := "completed", progress := 1,
                result := some (StageResult.alignedSegments (aligned_result.getD [])),
                timestamp := t }
            { store := Store.put store1 done, forwarded := [file_path],
              events := [running, done], collaboratorCalled := true }
          else
            let failed : ProcessingState :=
              { running with
          status := "failed",
                error := some "Word alignment failed", timestamp := t }
            { store := Store.put store1 failed, forwarded := [],
              events := [running, failed], collaboratorCalled := true }
        | _ => { store := store1, forwarded := [], events := [running], exn := true }
      else { store := store, forwarded := [] }
    | _, _ => { store := store, forwarded := [] }

/-- One iteration of StreamingPipeline._diarization_worker (streaming.py
lines 562-633) for a dequeued token.  When diarization is disabled in the
settings the token is forwarded immediately, before any store access, and
nothing is written (lines 574-578).  The diarizer result is tested with plain
truthiness (line 612), so an empty interval list is treated as a failure. -/
def diarization_step
    (diarize : Option StageResult → Option (List DiarizationSegment))
    (diarization_enabled : Bool)
    (store : Store) (file_path : String) (t : Rat) : StepOut :=
  if !diarization_enabled then
    { store := store, forwarded := [file_path] }
  else if isCompleted (load_state store file_path ProcessingStage.diarization) then
    { store := store, forwarded := [file_path] }
  else
    match load_state store file_path ProcessingStage.extract with
    | none => { store := store, forwarded := [] }
    | some audio_state =>
      if audio_state.status = "completed" then
        let running : ProcessingState :=
          { file_path := file_path, stage := ProcessingStage.diarization,
            status := "running", progress := 0, timestamp := t }
        let store1 := Store.put store running
        let diarization_result := diarize audio_state.result
        if truthyList diarization_result then
          let done : ProcessingState :=
            { running with
          status := "completed", progress := 1,
              result := some (StageResult.diarSegments (diarization_result.getD [])),
              timestamp := t }
          { store := Store.put store1 done, forwarded := [file_path],
            events := [running, done], collaboratorCalled := true }
        else
          let failed : ProcessingState :=
            { running with
          status := "failed",
              error := some "Speaker diarization failed", timestamp := t }
          { store := Store.put store1 failed, forwarded := [],
            events := [running, failed], collaboratorCalled := true }
      else { store := store, forwarded := [] }

/-- The diarization intervals the merge worker iterates (streaming.py line
676): an absent DIARIZATION record yields the empty list, a present record
contributes its result, and a present record whose result is not an interval
list makes the comprehension at line 679 raise (none here). -/
def mergeDiarSegments : Option ProcessingState → Option (List DiarizationSegment)
  | some dstate =>
    match dstate.result with
    | some (StageResult.diarSegments ds) => some ds
    | _ => none
  | none => some []

/-- One iteration of StreamingPipeline._merge_worker (streaming.py lines
635-707) for a dequeued token.  Only the ALIGNMENT record is required; a
missing DIARIZATION record yields an empty interval list (line 676), while a
present DIARIZATION record is used whatever its status: if its result is not
a list the comprehension at line 679 raises and the loop-level handler
swallows the iteration (modelled by exn).  The merge itself never fails. -/
def merge_step (store : Store) (file_path : String) (t : Rat) : StepOut :=
  if isCompleted (load_state store file_path ProcessingStage.merge_segments) then
    { store := store, forwarded := [file_path] }
  else
    let diarization_state := load_state store file_path ProcessingStage.diarization
    match load_state store file_path ProcessingStage.alignment with
    | none => { store := store, forwarded := [] }
    | some alignment_state =>
      if alignment_state.status = "completed" then
        let running : ProcessingState :=
          { file_path := file_path, stage := ProcessingStage.merge_segments,
            status := "running", progress := 0, timestamp := t }
        let store1 := Store.put store running
        match alignment_state.result with
        | some (StageResult.alignedSegments aligned_segments) =>
          match mergeDiarSegments diarization_state with
          | none => { store := store1, forwarded := [], events := [running], exn := true }
          | some ds =>
            let speaker_timeline := speakerTimeline ds
            let final_segments := mergeSegments speaker_timeline aligned_segments
            let done : ProcessingState :=
              { running with
          status := "completed", progress := 1,
                result := some (StageResult.alignedSegments final_segments),
                timestamp := t }
            { store := Store.put store1 done, forwarded := [file_path],
              events := [running, done] }
        | _ => { store := store1, forwarded := [], events := [running], exn := true }
      else { store := store, forwarded := [] }

/-- One iteration of StreamingPipeline._export_worker (streaming.py lines
709-746) for a dequeued token.  There is no skip check on the EXPORT record
itself: the worker loads the MERGE_SEGMENTS record, drops the token when it
is missing or incomplete, and otherwise writes a completed EXPORT record
carrying the merge result forward and fires the completion callback with the
pair of file identity and result. -/
def export_step (store : Store) (file_path : String) (t : Rat) : StepOut :=
  match load_state store file_path ProcessingStage.merge_segments with
  | none => { store := store, forwarded := [] }
  | some merged_state =>
    if merged_state.status = "completed" then
      let state : ProcessingState :=
        { file_path := file_path, stage := ProcessingStage.exportStage,
          status := "completed", progress := 1, result := merged_state.result,
          timestamp := t }
      { store := Store.put store state, forwarded := [], events := [state],
        completions := [(file_path, state.result)] }
    else { store := store, forwarded := [] }

/-- The external collaborators of the pipeline, one per stage that has one,
modelled only by their argument and return contracts (spec section 6). -/
structure Collaborators where
  process_audio_pipeline : String → Option String
  segment_audio : Option StageResult → Option (List String)
  transcribe : String → Option TranscriptionResult
  align_words :
    List TranscriptionSegment → Option StageResult → Option String →
      Option (List AlignedSegment)
  diarize : Option StageResult → Option (List DiarizationSegment)

/-- The outcome of pushing one submitted token through the stage chain: the
final store, which stage collaborators were invoked for the token, and the
completion-callback invocations. -/
structure PipelineOut where
  store : Store
  extractCalled : Bool
  vadCalled : Bool
  transcribeCalled : Bool
  alignCalled : Bool
  diarizeCalled : Bool
  completions : List (String × Option StageResult)

/-- One submission pushed to quiescence: start_processing writes the pending
EXTRACT_AUDIO record and enqueues the token (streaming.py lines 219-241),
then each stage worker in queue order processes the token and forwards it, or
stops the chain by forwarding nothing.  This is the sequential execution of
the queue topology for a single file. -/
def run_pipeline (C : Collaborators) (diarization_enabled : Bool)
    (store0 : Store) (file_path : String) (t : Rat) : PipelineOut :=
  let store := start_processing store0 file_path t
  let e := extraction_step C.process_audio_pipeline store file_path t
  let halted : PipelineOut :=
    { store := e.store, extractCalled := e.collaboratorCalled,
      vadCalled := false, transcribeCalled := false, alignCalled := false,
      diarizeCalled := false, completions := [] }
  if e.forwarded.isEmpty then halted else
  let v := vad_step C.segment_audio e.store file_path t
  let halted := { halted with store := v.store, vadCalled := v.collaboratorCalled }
  if v.forwarded.isEmpty then halted else
  let tr := transcription_step C.transcribe v.store file_path t
  let halted := { halted with store := tr.store, transcribeCalled := tr.collaboratorCalled }
  if tr.forwarded.isEmpty then halted else
  let al := alignment_step C.align_words tr.store file_path t
  let halted := { halted with store := al.store, alignCalled := al.collaboratorCalled }
  if al.forwarded.isEmpty then halted else
  let d := diarization_step C.diarize diarization_enabled al.store file_path t
  let halted := { halted with store := d.store, diarizeCalled := d.collaboratorCalled }
  if d.forwarded.isEmpty then halted else
  let m := merge_step d.store file_path t
  let halted := { halted with store := m.store }
  if m.forwarded.isEmpty then halted else
  let ex := export_step m.store file_path t
  { halted with store := ex.store, completions := ex.completions }

/-- The transcription worker threads started by start_workers (streaming.py
lines 768-772) and the device each one binds: one thread is spawned per entry
of gpu_devices, and every spawned worker evaluates gpu_devices[0] as its
device (streaming.py line 386).  The headD default is unreachable because the
constructor guarantees a non-empty device list (line 99). -/
def start_workers_transcription_devices (gpu_devices : List String) : List String :=
  gpu_devices.map (fun _ => gpu_devices.headD "cpu")

/-- The polling loop of StreamingPipeline.process_file (streaming.py lines
815-827), one iteration per elapsed second: load the EXPORT record at the
current tick, return its result when completed, otherwise sleep and retry
until the fixed budget of seconds is exhausted, in which case None is
returned.  stores gives the (concurrently evolving) store at each tick. -/
def process_file_loop (stores : Nat → Store) (file_path : String) :
    Nat → Nat → Option StageResult
  | _, 0 => none
  | tick, fuel + 1 =>
    match load_state (stores tick) file_path ProcessingStage.exportStage with
    | some state =>
      if state.status = "completed" then state.result
      else process_file_loop stores file_path (tick + 1) fuel
    | none => process_file_loop stores file_path (tick + 1) fuel

/-- The hard-coded wait budget of process_file (streaming.py line 815):
max_wait_time is 300 seconds, 5 minutes, and is not a parameter. -/
def max_wait_time : Nat := 300

/-- StreamingPipeline.process_file (streaming.py lines 801-827): submit the
file (modelled as already reflected in stores), then poll the EXPORT record
once per second against the fixed 300 second budget.  The timeout signal is
None, the same value a completed record with a None result would return. -/
def process_file (stores : Nat → Store) (file_path : String) :
    Option StageResult :=
  process_file_loop stores file_path 0 max_wait_time

/-- Modelled from the spec: the runToCompletion(identity, timeout) contract
of spec sections 4.4 and 6, which takes a caller-supplied timeout in seconds
and polls the Export StageRecord until completed or the timeout elapses,
returning the result on completion and a distinguishable timeout signal
(none) otherwise.  This definition follows the words of the spec and exists
to be compared against process_file, which is what the code provides. -/
def runToCompletionSpec (stores : Nat → Store) (file_path : String) :
    Nat → Nat → Option (Option StageResult)
  | _, 0 => none
  | tick, timeout + 1 =>
    match load_state (stores tick) file_path ProcessingStage.exportStage with
    | some state =>
      if state.status = "completed" then some state.result
      else runToCompletionSpec stores file_path (tick + 1) timeout
    | none => runToCompletionSpec stores file_path (tick + 1) timeout

/-- The spec-level runToCompletion applied from tick zero. -/
def runToCompletion (stores : Nat → Store) (file_path : String)
    (timeout : Nat) : Option (Option StageResult) :=
  runToCompletionSpec stores file_path 0 timeout

/-- The speaker the spec assigns to a midpoint m: the label of the first
interval in timeline iteration order whose span contains m, and the sentinel
UNKNOWN when no interval contains it (spec section 4.3, Merge row). -/
def specAssignedSpeaker (timeline : List ((Rat × Rat) × String)) (m : Rat) :
    String :=
  match timeline.find? (fun p => decide (p.1.1 ≤ m ∧ m ≤ p.1.2)) with
  | some p => p.2
  | none => "UNKNOWN"

theorem firstSpeaker_eq_spec (m : Rat) (timeline : List ((Rat × Rat) × String)) :
    firstSpeaker m timeline = specAssignedSpeaker timeline m := by
  induction timeline with
  | nil => rfl
  | cons p rest ih =>
    by_cases h : p.1.1 ≤ m ∧ m ≤ p.1.2
    · simp [firstSpeaker, specAssignedSpeaker, List.find?_cons, h]
    · simp only [firstSpeaker, specAssignedSpeaker, List.find?_cons] at *
      simp [h, ih]

theorem mergeSegments_speaker (timeline : List ((Rat × Rat) × String))
    (asegs : List AlignedSegment) :
    ∀ seg ∈ mergeSegments timeline asegs, ∀ ws, seg.words = some ws →
      ∀ w ∈ ws, w.speaker = some (firstSpeaker (wordMidPoint w) timeline) := by
  intro seg hseg ws hws w hw
  rw [mergeSegments] at hseg
  rcases List.mem_map.1 hseg with ⟨orig, _, hmap⟩
  cases h : orig.words with
  | none =>
    rw [h] at hmap
    subst hmap
    rw [h] at hws
    cases hws
  | some ws0 =>
    rw [h] at hmap
    subst hmap
    simp only at hws
    cases hws
    rcases List.mem_map.1 hw with ⟨w0, _, hw0⟩
    subst hw0
    rfl

/-- The record written by a full non-skipped merge run. -/
def mergeDoneRecord (file_path : String) (t : Rat)
    (out_segs : List AlignedSegment) : ProcessingState :=
  { file_path := file_path, stage := ProcessingStage.merge_segments,
    status := "completed", progress := 1,
    result := some (StageResult.alignedSegments out_segs), timestamp := t }

theorem merge_step_run (store : Store) (file_path : String) (t : Rat)
    (arec : ProcessingState) (dsegs : List DiarizationSegment)
    (asegs : List AlignedSegment)
    (hskip : isCompleted (load_state store file_path ProcessingStage.merge_segments) = false)
    (ha : load_state store file_path ProcessingStage.alignment = some arec)
    (hst : arec.status = "completed")
    (hres : arec.result = some (StageResult.alignedSegments asegs))
    (hd : mergeDiarSegments (load_state store file_path ProcessingStage.diarization) = some dsegs) :
    (merge_step store file_path t).store file_path ProcessingStage.merge_segments =
        some (mergeDoneRecord file_path t
          (mergeSegments (speakerTimeline dsegs) asegs)) ∧
      (merge_step store file_path t).forwarded = [file_path] := by
  simp [merge_step, hskip, ha, hd, hres, hst, Store.put, mergeDoneRecord]

/-- The tie-break word of spec section 8: it spans 1.0 to 2.0, midpoint 1.5. -/
def tieWord : Word := { start := 1, stop := 2, text := "w" }

/-- The aligned segments for the tie-break scenario: one segment holding the
one word. -/
def tieAsegs : List AlignedSegment :=
  [{ text := "w", start := 1, stop := 2, words := some [tieWord] }]

/-- The diarization intervals of spec section 8: (0, 1.5, A), (1.5, 3.0, B). -/
def tieDsegs : List DiarizationSegment :=
  [{ start := 0, stop := mkRat 3 2, speaker := "A" },
   { start := mkRat 3 2, stop := 3, speaker := "B" }]

/-- A completed ALIGNMENT record holding the tie-break word. -/
def tieAlignRec : ProcessingState :=
  { file_path := "f", stage := ProcessingStage.alignment, status := "completed",
    progress := 1, result := some (StageResult.alignedSegments tieAsegs) }

/-- A completed DIARIZATION record holding the tie-break intervals. -/
def tieDiarRec : ProcessingState :=
  { file_path := "f", stage := ProcessingStage.diarization,
    status := "completed", progress := 1,
    result := some (StageResult.diarSegments tieDsegs) }

/-- A store holding exactly the two records the merge worker needs for the
tie-break scenario. -/
def tieStore : Store := fun fp stage =>
  if fp = "f" ∧ stage = ProcessingStage.alignment then some tieAlignRec
  else if fp = "f" ∧ stage = ProcessingStage.diarization then some tieDiarRec
  else none

/-- Claim C2: for every Merge execution with a completed Align record and a
list of diarization intervals, every word in the Merge result is assigned the
label of the first interval in timeline iteration order whose span contains
the word temporal midpoint m, where m is the word start plus half the word
span, and the sentinel UNKNOWN when no interval contains m; in particular,
with intervals (0, 1.5, A) and (1.5, 3.0, B) and a word spanning 1.0 to 2.0
(midpoint 1.5), the assigned speaker is the first match in iteration order,
namely A. -/
theorem C2_merge_first_match_speaker :
    (∀ (store : Store) (fp : String) (t : Rat) (arec : ProcessingState)
        (dsegs : List DiarizationSegment) (asegs : List AlignedSegment),
      isCompleted (load_state store fp ProcessingStage.merge_segments) = false →
      load_state store fp ProcessingStage.alignment = some arec →
      arec.status = "completed" →
      arec.result = some (StageResult.alignedSegments asegs) →
      mergeDiarSegments (load_state store fp ProcessingStage.diarization) =
        some dsegs →
      (merge_step store fp t).store fp ProcessingStage.merge_segments =
          some (mergeDoneRecord fp t
            (mergeSegments (speakerTimeline dsegs) asegs)) ∧
        ∀ seg ∈ mergeSegments (speakerTimeline dsegs) asegs, ∀ ws,
          seg.words = some ws → ∀ w ∈ ws,
            w.speaker =
              some (specAssignedSpeaker (speakerTimeline dsegs) (wordMidPoint w))) ∧
    (merge_step tieStore "f" 0).store "f" ProcessingStage.merge_segments =
      some (mergeDoneRecord "f" 0
        [{ text := "w", start := 1, stop := 2,
           words := some
             [{ start := 1, stop := 2, text := "w", speaker := some "A" }] }]) := by
  constructor
  · intro store fp t arec dsegs asegs hskip ha hst hres hd
    refine ⟨(merge_step_run store fp t arec dsegs asegs hskip ha hst hres hd).1, ?_⟩
    intro seg hseg ws hws w hw
    rw [mergeSegments_speaker (speakerTimeline dsegs) asegs seg hseg ws hws w hw]
    rw [firstSpeaker_eq_spec]
  · decide

theorem C2_merge_first_match_speaker_witness :
    isCompleted (load_state tieStore "f" ProcessingStage.merge_segments) = false ∧
    load_state tieStore "f" ProcessingStage.alignment = some tieAlignRec ∧
    tieAlignRec.status = "completed" ∧
    tieAlignRec.result = some (StageResult.alignedSegments tieAsegs) ∧
    mergeDiarSegments (load_state tieStore "f" ProcessingStage.diarization) =
      some tieDsegs ∧
    ((merge_step tieStore "f" 0).store "f" ProcessingStage.merge_segments =
        some (mergeDoneRecord "f" 0
          (mergeSegments (speakerTimeline tieDsegs) tieAsegs)) ∧
      ∀ seg ∈ mergeSegments (speakerTimeline tieDsegs) tieAsegs, ∀ ws,
        seg.words = some ws → ∀ w ∈ ws,
          w.speaker =
            some (specAssignedSpeaker (speakerTimeline tieDsegs) (wordMidPoint w))) :=
  ⟨by decide, by decide, by decide, by decide, by decide,
    C2_merge_first_match_speaker.1 tieStore "f" 0 tieAlignRec tieDsegs tieAsegs
      (by decide) (by decide) (by decide) (by decide) (by decide)⟩

/-- A store holding only a completed ALIGNMENT record for f, as after a run
with diarization disabled: no DIARIZATION record was ever written. -/
def noDiarStore : Store := fun fp stage =>
  if fp = "f" ∧ stage = ProcessingStage.alignment then some tieAlignRec else none

/-- Claim C4: when diarization is disabled in the configuration, the Diarize
worker forwards every dequeued token directly to the Merge queue without
writing any DIARIZATION record (the store is returned untouched, no event is
emitted and the collaborator is not invoked), and a Merge execution for an
identity with no DIARIZATION record assigns every word the UNKNOWN speaker
sentinel. -/
theorem C4_diarization_disabled_unknown_sentinel :
    (∀ (diarize : Option StageResult → Option (List DiarizationSegment))
        (store : Store) (fp : String) (t : Rat),
      diarization_step diarize false store fp t =
        { store := store, forwarded := [fp] }) ∧
    (∀ (store : Store) (fp : String) (t : Rat) (arec : ProcessingState)
        (asegs : List AlignedSegment),
      isCompleted (load_state store fp ProcessingStage.merge_segments) = false →
      load_state store fp ProcessingStage.alignment = some arec →
      arec.status = "completed" →
      arec.result = some (StageResult.alignedSegments asegs) →
      load_state store fp ProcessingStage.diarization = none →
      (merge_step store fp t).store fp ProcessingStage.merge_segments =
          some (mergeDoneRecord fp t (mergeSegments [] asegs)) ∧
        ∀ seg ∈ mergeSegments [] asegs, ∀ ws, seg.words = some ws →
          ∀ w ∈ ws, w.speaker = some "UNKNOWN") := by
  constructor
  · intro diarize store fp t
    rfl
  · intro store fp t arec asegs hskip ha hst hres hd
    have hd' : mergeDiarSegments (load_state store fp ProcessingStage.diarization) =
        some [] := by rw [hd]; rfl
    refine ⟨(merge_step_run store fp t arec [] asegs hskip ha hst hres hd').1, ?_⟩
    intro seg hseg ws hws w hw
    exact mergeSegments_speaker [] asegs seg hseg ws hws w hw

theorem C4_diarization_disabled_unknown_sentinel_witness :
    diarization_step (fun _ => none) false noDiarStore "f" 0 =
      { store := noDiarStore, forwarded := ["f"] } ∧
    (isCompleted (load_state noDiarStore "f" ProcessingStage.merge_segments) = false ∧
      load_state noDiarStore "f" ProcessingStage.alignment = some tieAlignRec ∧
      tieAlignRec.status = "completed" ∧
      tieAlignRec.result = some (StageResult.alignedSegments tieAsegs) ∧
      load_state noDiarStore "f" ProcessingStage.diarization = none ∧
      ((merge_step noDiarStore "f" 0).store "f" ProcessingStage.merge_segments =
          some (mergeDoneRecord "f" 0 (mergeSegments [] tieAsegs)) ∧
        ∀ seg ∈ mergeSegments [] tieAsegs, ∀ ws, seg.words = some ws →
          ∀ w ∈ ws, w.speaker = some "UNKNOWN")) :=
  ⟨C4_diarization_disabled_unknown_sentinel.1 (fun _ => none) noDiarStore "f" 0,
    by decide, by decide, by decide, by decide, by decide,
    C4_diarization_disabled_unknown_sentinel.2 noDiarStore "f" 0 tieAlignRec
      tieAsegs (by decide) (by decide) (by decide) (by decide) (by decide)⟩

theorem assocLookup_dictInsert (acc : List ((Rat × Rat) × String))
    (k' : Rat × Rat) (v : String) (k : Rat × Rat) :
    assocLookup (dictInsert acc k' v) k =
      if k = k' then some v else assocLookup acc k := by
  induction acc with
  | nil =>
    by_cases h : k = k'
    · subst h; simp [dictInsert, assocLookup]
    · have h' : ¬k' = k := fun hh => h hh.symm
      simp [dictInsert, assocLookup, h, h']
  | cons p rest ih =>
    by_cases hp : p.1 = k'
    · by_cases h : k = k'
      · subst h
        simp [dictInsert, assocLookup, hp]
      · have h' : ¬k' = k := fun hh => h hh.symm
        have hpk : ¬p.1 = k := by rw [hp]; exact h'
        simp [dictInsert, assocLookup, hp, h, h', hpk]
    · by_cases hpk : p.1 = k
      · have hkk : ¬k = k' := fun hh => hp (hpk.trans hh)
        simp [dictInsert, assocLookup, hp, hpk, hkk]
      · simp [dictInsert, assocLookup, hp, hpk, ih]

theorem assocLookup_timeline_foldl (dsegs : List DiarizationSegment) :
    ∀ (acc : List ((Rat × Rat) × String)) (k : Rat × Rat),
      assocLookup
          (dsegs.foldl
            (fun acc seg => dictInsert acc (seg.start, seg.stop) seg.speaker)
            acc) k =
        match dsegs.reverse.find? (fun sg => decide ((sg.start, sg.stop) = k)) with
        | some sg => some sg.speaker
        | none => assocLookup acc k := by
  induction dsegs with
  | nil => intro acc k; rfl
  | cons sg rest ih =>
    intro acc k
    rw [List.foldl_cons, ih]
    rw [List.reverse_cons, List.find?_append]
    cases hfind : rest.reverse.find? (fun sg => decide ((sg.start, sg.stop) = k)) with
    | some sg' => simp [hfind]
    | none =>
      simp only [hfind, Option.none_or]
      rw [assocLookup_dictInsert]
      by_cases h : (sg.start, sg.stop) = k
      · simp [List.find?, h, eq_comm]
      · have h2 : ¬k = (sg.start, sg.stop) := fun hk => h hk.symm
        simp [List.find?, h, h2]

/-- Two diarization intervals with identical (start, end) spans and distinct
labels: (0, 2, A) followed by (0, 2, B). -/
def dupDsegs : List DiarizationSegment :=
  [{ start := 0, stop := 2, speaker := "A" },
   { start := 0, stop := 2, speaker := "B" }]

/-- One word spanning 0.5 to 1.5, whose midpoint 1.0 falls in the span
(0, 2) shared by the two duplicate intervals. -/
def dupAsegs : List AlignedSegment :=
  [{ text := "w", start := mkRat 1 2, stop := mkRat 3 2,
     words := some [{ start := mkRat 1 2, stop := mkRat 3 2, text := "w" }] }]

/-- A completed ALIGNMENT record holding the duplicate-span word. -/
def dupAlignRec : ProcessingState :=
  { file_path := "f", stage := ProcessingStage.alignment, status := "completed",
    progress := 1, result := some (StageResult.alignedSegments dupAsegs) }

/-- A completed DIARIZATION record holding the duplicate-span intervals. -/
def dupDiarRec : ProcessingState :=
  { file_path := "f", stage := ProcessingStage.diarization,
    status := "completed", progress := 1,
    result := some (StageResult.diarSegments dupDsegs) }

/-- A store holding the two records for the duplicate-span scenario. -/
def dupStore : Store := fun fp stage =>
  if fp = "f" ∧ stage = ProcessingStage.alignment then some dupAlignRec
  else if fp = "f" ∧ stage = ProcessingStage.diarization then some dupDiarRec
  else none

/-- Claim C10: the speaker timeline of the merge worker is a dict keyed by
the (start, end) span, so later entries overwrite earlier ones: looking up
any span in the timeline yields the speaker of the last interval with that
span in the diarization list; in particular, with intervals (0, 2, A) and
(0, 2, B) and a word spanning 0.5 to 1.5 (midpoint 1.0, inside the shared
span), the merge assigns the word speaker B, the last duplicate, not A, the
first containing interval in the original list order. -/
theorem C10_duplicate_span_last_label_wins :
    (∀ (dsegs : List DiarizationSegment) (k : Rat × Rat),
      assocLookup (speakerTimeline dsegs) k =
        Option.map DiarizationSegment.speaker
          (dsegs.reverse.find? (fun sg => decide ((sg.start, sg.stop) = k)))) ∧
    (merge_step dupStore "f" 0).store "f" ProcessingStage.merge_segments =
      some (mergeDoneRecord "f" 0
        [{ text := "w", start := mkRat 1 2, stop := mkRat 3 2,
           words := some
             [{ start := mkRat 1 2, stop := mkRat 3 2, text := "w",
                speaker := some "B" }] }]) := by
  constructor
  · intro dsegs k
    rw [speakerTimeline, assocLookup_timeline_foldl dsegs [] k]
    cases hfind : dsegs.reverse.find? (fun sg => decide ((sg.start, sg.stop) = k)) with
    | some sg => simp
    | none => rfl
  · decide

/-- A failed EXTRACT_AUDIO record: present but not completed, result absent. -/
def extractFailedRec : ProcessingState :=
  { file_path := "f", stage := ProcessingStage.extract, status := "failed",
    progress := 0, error := some "Audio extraction failed" }

/-- A completed TRANSCRIPTION record with an empty transcription list. -/
def transcCompletedRec : ProcessingState :=
  { file_path := "f", stage := ProcessingStage.transcription,
    status := "completed", progress := 1,
    result := some (StageResult.transcriptions []) }

/-- A store where extraction failed but transcription is (spuriously)
completed: the situation that separates the alignment worker upstream guard
from the guard of every other stage. -/
def c7Store : Store := fun fp stage =>
  if fp = "f" ∧ stage = ProcessingStage.extract then some extractFailedRec
  else if fp = "f" ∧ stage = ProcessingStage.transcription then
    some transcCompletedRec
  else none

theorem C7_alignment_ignores_extract_status_counterexample :
    c7Store "f" ProcessingStage.extract = some extractFailedRec ∧
    extractFailedRec.status ≠ "completed" ∧
    c7Store "f" ProcessingStage.transcription = some transcCompletedRec ∧
    transcCompletedRec.status = "completed" ∧
    c7Store "f" ProcessingStage.alignment = none ∧
    (alignment_step (fun _ _ _ => none) c7Store "f" 0).store "f"
        ProcessingStage.alignment ≠ none := by
  refine ⟨rfl, by decide, rfl, by decide, rfl, by decide⟩

/-- An empty store: no record exists for any file or stage. -/
def emptyStore : Store := fun _ _ => none

/-- Claim C7 (amended): for every non-Extract stage, when the stage's own
record is not completed and a required upstream record is missing or not
completed, the worker silently drops the token, forwarding nothing and
leaving the store untouched - except that the Align worker checks only the
existence, never the status, of the EXTRACT_AUDIO record: when that record
is present but not completed while TRANSCRIPTION is completed, Align
proceeds and writes records for (identity, Align) (see the counterexample).
The conjuncts below cover SegmentSpeech, Transcribe, Align on missing or
incomplete Transcribe, Align on missing Extract, Diarize (enabled), Merge
and Export. -/
theorem C7_starved_upstream_silent_drop :
    (∀ (f : Option StageResult → Option (List String)) (store : Store)
        (fp : String) (t : Rat),
      isCompleted (load_state store fp ProcessingStage.vad_segmentation) = false →
      isCompleted (load_state store fp ProcessingStage.extract) = false →
      vad_step f store fp t = { store := store, forwarded := [] }) ∧
    (∀ (f : String → Option TranscriptionResult) (store : Store)
        (fp : String) (t : Rat),
      isCompleted (load_state store fp ProcessingStage.transcription) = false →
      isCompleted (load_state store fp ProcessingStage.vad_segmentation) = false →
      transcription_step f store fp t = { store := store, forwarded := [] }) ∧
    (∀ (f : List TranscriptionSegment → Option StageResult → Option String →
          Option (List AlignedSegment)) (store : Store) (fp : String) (t : Rat),
      isCompleted (load_state store fp ProcessingStage.alignment) = false →
      isCompleted (load_state store fp ProcessingStage.transcription) = false →
      alignment_step f store fp t = { store := store, forwarded := [] }) ∧
    (∀ (f : List TranscriptionSegment → Option StageResult → Option String →
          Option (List AlignedSegment)) (store : Store) (fp : String) (t : Rat),
      isCompleted (load_state store fp ProcessingStage.alignment) = false →
      load_state store fp ProcessingStage.extract = none →
      alignment_step f store fp t = { store := store, forwarded := [] }) ∧
    (∀ (f : Option StageResult → Option (List DiarizationSegment))
        (store : Store) (fp : String) (t : Rat),
      isCompleted (load_state store fp ProcessingStage.diarization) = false →
      isCompleted (load_state store fp ProcessingStage.extract) = false →
      diarization_step f true store fp t = { store := store, forwarded := [] }) ∧
    (∀ (store : Store) (fp : String) (t : Rat),
      isCompleted (load_state store fp ProcessingStage.merge_segments) = false →
      isCompleted (load_state store fp ProcessingStage.alignment) = false →
      merge_step store fp t = { store := store, forwarded := [] }) ∧
    (∀ (store : Store) (fp : String) (t : Rat),
      isCompleted (load_state store fp ProcessingStage.merge_segments) = false →
      export_step store fp t = { store := store, forwarded := [] }) := by
  refine ⟨?_, ?_, ?_, ?_, ?_, ?_, ?_⟩
  · intro f store fp t h1 h2
    cases h : load_state store fp ProcessingStage.extract with
    | none => simp [vad_step, h1, h]
    | some ex =>
      have h2' : ¬ex.status = "completed" := by
        rw [h] at h2; simpa [isCompleted] using h2
      simp [vad_step, h1, h, h2']
  · intro f store fp t h1 h2
    cases h : load_state store fp ProcessingStage.vad_segmentation with
    | none => simp [transcription_step, h1, h]
    | some vs =>
      have h2' : ¬vs.status = "completed" := by
        rw [h] at h2; simpa [isCompleted] using h2
      simp [transcription_step, h1, h, h2']
  · intro f store fp t h1 h2
    cases h : load_state store fp ProcessingStage.transcription with
    | none =>
      cases ha : load_state store fp ProcessingStage.extract with
      | none => simp [alignment_step, h1, h, ha]
      | some ex => simp [alignment_step, h1, h, ha]
    | some ts =>
      have h2' : ¬ts.status = "completed" := by
        rw [h] at h2; simpa [isCompleted] using h2
      cases ha : load_state store fp ProcessingStage.extract with
      | none => simp [alignment_step, h1, h, ha]
      | some ex => simp [alignment_step, h1, h, ha, h2']
  · intro f store fp t h1 h2
    cases h : load_state store fp ProcessingStage.transcription with
    | none => simp [alignment_step, h1, h, h2]
    | some ts => simp [alignment_step, h1, h, h2]
  · intro f store fp t h1 h2
    cases h : load_state store fp ProcessingStage.extract with
    | none => simp [diarization_step, h1, h]
    | some ex =>
      have h2' : ¬ex.status = "completed" := by
        rw [h] at h2; simpa [isCompleted] using h2
      simp [diarization_step, h1, h, h2']
  · intro store fp t h1 h2
    cases h : load_state store fp ProcessingStage.alignment with
    | none => simp [merge_step, h1, h]
    | some ar =>
      have h2' : ¬ar.status = "completed" := by
        rw [h] at h2; simpa [isCompleted] using h2
      simp [merge_step, h1, h, h2']
  · intro store fp t h1
    cases h : load_state store fp ProcessingStage.merge_segments with
    | none => simp [export_step, h]
    | some mr =>
      have h1' : ¬mr.status = "completed" := by
        rw [h] at h1; simpa [isCompleted] using h1
      simp [export_step, h, h1']

theorem C7_starved_upstream_silent_drop_witness :
    (isCompleted (load_state emptyStore "f" ProcessingStage.vad_segmentation) = false ∧
      isCompleted (load_state emptyStore "f" ProcessingStage.extract) = false ∧
      vad_step (fun _ => none) emptyStore "f" 0 =
        { store := emptyStore, forwarded := [] }) ∧
    (transcription_step (fun _ => none) emptyStore "f" 0 =
      { store := emptyStore, forwarded := [] }) ∧
    (alignment_step (fun _ _ _ => none) emptyStore "f" 0 =
      { store := emptyStore, forwarded := [] }) ∧
    (diarization_step (fun _ => none) true emptyStore "f" 0 =
      { store := emptyStore, forwarded := [] }) ∧
    (merge_step emptyStore "f" 0 = { store := emptyStore, forwarded := [] }) ∧
    (export_step emptyStore "f" 0 = { store := emptyStore, forwarded := [] }) :=
  ⟨⟨by decide, by decide,
      C7_starved_upstream_silent_drop.1 (fun _ => none) emptyStore "f" 0
        (by decide) (by decide)⟩,
    C7_starved_upstream_silent_drop.2.1 (fun _ => none) emptyStore "f" 0
      (by decide) (by decide),
    C7_starved_upstream_silent_drop.2.2.1 (fun _ _ _ => none) emptyStore "f" 0
      (by decide) (by decide),
    C7_starved_upstream_silent_drop.2.2.2.2.1 (fun _ => none) emptyStore "f" 0
      (by decide) (by decide),
    C7_starved_upstream_silent_drop.2.2.2.2.2.1 emptyStore "f" 0
      (by decide) (by decide),
    C7_starved_upstream_silent_drop.2.2.2.2.2.2 emptyStore "f" 0 (by decide)⟩

/-- The running record a worker writes before invoking its collaborator
(step 5 of the generic loop, spec section 4.3). -/
def runningRecord (fp : String) (stage : ProcessingStage) (t : Rat) :
    ProcessingState :=
  { file_path := fp, stage := stage, status := "running", progress := 0,
    timestamp := t }

/-- The failed record a worker writes when its collaborator returns no
usable result (step 8 of the generic loop): progress stays 0, the error text
is stage specific. -/
def failedRecord (fp : String) (stage : ProcessingStage) (err : String)
    (t : Rat) : ProcessingState :=
  { file_path := fp, stage := stage, status := "failed", progress := 0,
    error := some err, timestamp := t }

/-- A completed VAD record holding one sub-clip path. -/
def c3VadRec : ProcessingState :=
  { file_path := "f", stage := ProcessingStage.vad_segmentation,
    status := "completed", progress := 1,
    result := some (StageResult.segmentPaths ["s0.wav"]) }

/-- A store where VAD is completed with one sub-clip and nothing else
exists, ready for the transcription worker. -/
def c3Store : Store := fun fp stage =>
  if fp = "f" ∧ stage = ProcessingStage.vad_segmentation then some c3VadRec
  else none

theorem C3_transcription_no_failure_branch_counterexample :
    c3Store "f" ProcessingStage.vad_segmentation = some c3VadRec ∧
    c3VadRec.status = "completed" ∧
    (transcription_step (fun _ => none) c3Store "f" 0).store "f"
        ProcessingStage.transcription =
      some { file_path := "f", stage := ProcessingStage.transcription,
             status := "completed", progress := 1,
             result := some (StageResult.transcriptions []), timestamp := 0 } ∧
    (transcription_step (fun _ => none) c3Store "f" 0).forwarded = ["f"] := by
  refine ⟨rfl, by decide, by decide, by decide⟩

theorem transcription_loop_none (transcribe : String → Option TranscriptionResult)
    (base : ProcessingState) (total : Nat) :
    ∀ (paths : List String) (i : Nat) (store : Store)
      (events : List ProcessingState) (acc : List TranscriptionItem),
      (∀ p ∈ paths, transcribe p = none) →
      (transcription_loop transcribe base total paths i store events acc).2.2 =
        acc := by
  intro paths
  induction paths with
  | nil => intro i store events acc _; rfl
  | cons p rest ih =>
    intro i store events acc hall
    rw [transcription_loop]
    rw [hall p (List.mem_cons_self p rest)]
    exact ih (i + 1) _ _ acc fun q hq => hall q (List.mem_cons_of_mem p hq)

/-- Claim C3 (amended): when a stage collaborator returns the None or empty
sentinel where a non-empty result was required, the Extract, SegmentSpeech,
Align and Diarize workers write a failed record with a stage-specific error
description, invoke the progress callback with the running and then the
failed record, and do not forward the token; the Transcribe worker has no
failure branch: it writes a completed record holding the possibly empty list
of successful per-sub-clip results and forwards the token anyway (see the
counterexample); a collaborator that raises is caught at loop level with no
further record written. -/
theorem C3_collaborator_failure_handling :
    (∀ (pre : String → Option String) (store : Store) (fp : String) (t : Rat),
      isCompleted (load_state store fp ProcessingStage.extract) = false →
      truthyStr (pre fp) = false →
      extraction_step pre store fp t =
        { store := Store.put (Store.put store (runningRecord fp ProcessingStage.extract t))
            (failedRecord fp ProcessingStage.extract "Audio extraction failed" t),
          forwarded := [],
          events := [runningRecord fp ProcessingStage.extract t,
            failedRecord fp ProcessingStage.extract "Audio extraction failed" t],
          collaboratorCalled := true }) ∧
    (∀ (f : Option StageResult → Option (List String)) (store : Store)
        (fp : String) (t : Rat) (ex : ProcessingState),
      isCompleted (load_state store fp ProcessingStage.vad_segmentation) = false →
      load_state store fp ProcessingStage.extract = some ex →
      ex.status = "completed" →
      f ex.result = none →
      vad_step f store fp t =
        { store := Store.put (Store.put store (runningRecord fp ProcessingStage.vad_segmentation t))
            (failedRecord fp ProcessingStage.vad_segmentation "VAD segmentation failed" t),
          forwarded := [],
          events := [runningRecord fp ProcessingStage.vad_segmentation t,
            failedRecord fp ProcessingStage.vad_segmentation "VAD segmentation failed" t],
          collaboratorCalled := true }) ∧
    (∀ (f : List TranscriptionSegment → Option StageResult → Option String →
          Option (List AlignedSegment)) (store : Store) (fp : String) (t : Rat)
        (ts ex : ProcessingState) (items : List TranscriptionItem),
      isCompleted (load_state store fp ProcessingStage.alignment) = false →
      load_state store fp ProcessingStage.transcription = some ts →
      ts.status = "completed" →
      ts.result = some (StageResult.transcriptions items) →
      load_state store fp ProcessingStage.extract = some ex →
      truthyList (f (items.flatMap fun item => item.result.segments) ex.result
        (pickLanguage items)) = false →
      alignment_step f store fp t =
        { store := Store.put (Store.put store (runningRecord fp ProcessingStage.alignment t))
            (failedRecord fp ProcessingStage.alignment "Word alignment failed" t),
          forwarded := [],
          events := [runningRecord fp ProcessingStage.alignment t,
            failedRecord fp ProcessingStage.alignment "Word alignment failed" t],
          collaboratorCalled := true }) ∧
    (∀ (f : Option StageResult → Option (List DiarizationSegment))
        (store : Store) (fp : String) (t : Rat) (ex : ProcessingState),
      isCompleted (load_state store fp ProcessingStage.diarization) = false →
      load_state store fp ProcessingStage.extract = some ex →
      ex.status = "completed" →
      truthyList (f ex.result) = false →
      diarization_step f true store fp t =
        { store := Store.put (Store.put store (runningRecord fp ProcessingStage.diarization t))
            (failedRecord fp ProcessingStage.diarization "Speaker diarization failed" t),
          forwarded := [],
          events := [runningRecord fp ProcessingStage.diarization t,
            failedRecord fp ProcessingStage.diarization "Speaker diarization failed" t],
          collaboratorCalled := true }) ∧
    (∀ (f : String → Option TranscriptionResult) (store : Store) (fp : String)
        (t : Rat) (vs : ProcessingState) (ps : List String),
      isCompleted (load_state store fp ProcessingStage.transcription) = false →
      load_state store fp ProcessingStage.vad_segmentation = some vs →
      vs.status = "completed" →
      vs.result = some (StageResult.segmentPaths ps) →
      (∀ p ∈ ps, f p = none) →
      (transcription_step f store fp t).store fp ProcessingStage.transcription =
          some { file_path := fp, stage := ProcessingStage.transcription,
                 status := "completed", progress := 1,
                 result := some (StageResult.transcriptions []), timestamp := t } ∧
        (transcription_step f store fp t).forwarded = [fp]) := by
  refine ⟨?_, ?_, ?_, ?_, ?_⟩
  · intro pre store fp t h1 h2
    simp [extraction_step, h1, h2, runningRecord, failedRecord]
  · intro f store fp t ex h1 hex hst hru
    simp [vad_step, h1, hex, hst, hru, runningRecord, failedRecord]
  · intro f store fp t ts ex items h1 ht hst hres hex hfal
    simp [alignment_step, h1, ht, hst, hres, hex, hfal, runningRecord, failedRecord]
  · intro f store fp t ex h1 hex hst hfal
    simp [diarization_step, h1, hex, hst, hfal, runningRecord, failedRecord]
  · intro f store fp t vs ps h1 hv hst hres hall
    have hacc : ∀ (st : Store) (ev : List ProcessingState),
        (transcription_loop f (runningRecord fp ProcessingStage.transcription t)
          ps.length ps 0 st ev []).2.2 = [] :=
      fun st ev => transcription_loop_none f _ ps.length ps 0 st ev [] hall
    simp only [runningRecord] at hacc
    simp [transcription_step, h1, hv, hst, hres, runningRecord, hacc, Store.put]

/-- A completed EXTRACT_AUDIO record with a processed asset path. -/
def extractDoneRec : ProcessingState :=
  { file_path := "f", stage := ProcessingStage.extract, status := "completed",
    progress := 1, result := some (StageResult.audioPath "a.wav") }

/-- A store holding only the completed EXTRACT_AUDIO record. -/
def exStore : Store := fun fp stage =>
  if fp = "f" ∧ stage = ProcessingStage.extract then some extractDoneRec
  else none

theorem C3_collaborator_failure_handling_witness :
    (isCompleted (load_state emptyStore "f" ProcessingStage.extract) = false ∧
      truthyStr none = false ∧
      extraction_step (fun _ => none) emptyStore "f" 0 =
        { store := Store.put (Store.put emptyStore
              (runningRecord "f" ProcessingStage.extract 0))
            (failedRecord "f" ProcessingStage.extract "Audio extraction failed" 0),
          forwarded := [],
          events := [runningRecord "f" ProcessingStage.extract 0,
            failedRecord "f" ProcessingStage.extract "Audio extraction failed" 0],
          collaboratorCalled := true }) ∧
    (load_state exStore "f" ProcessingStage.extract = some extractDoneRec ∧
      extractDoneRec.status = "completed" ∧
      vad_step (fun _ => none) exStore "f" 0 =
        { store := Store.put (Store.put exStore
              (runningRecord "f" ProcessingStage.vad_segmentation 0))
            (failedRecord "f" ProcessingStage.vad_segmentation
              "VAD segmentation failed" 0),
          forwarded := [],
          events := [runningRecord "f" ProcessingStage.vad_segmentation 0,
            failedRecord "f" ProcessingStage.vad_segmentation
              "VAD segmentation failed" 0],
          collaboratorCalled := true }) ∧
    (load_state c7Store "f" ProcessingStage.transcription = some transcCompletedRec ∧
      load_state c7Store "f" ProcessingStage.extract = some extractFailedRec ∧
      alignment_step (fun _ _ _ => none) c7Store "f" 0 =
        { store := Store.put (Store.put c7Store
              (runningRecord "f" ProcessingStage.alignment 0))
            (failedRecord "f" ProcessingStage.alignment "Word alignment failed" 0),
          forwarded := [],
          events := [runningRecord "f" ProcessingStage.alignment 0,
            failedRecord "f" ProcessingStage.alignment "Word alignment failed" 0],
          collaboratorCalled := true }) ∧
    (diarization_step (fun _ => none) true exStore "f" 0 =
        { store := Store.put (Store.put exStore
              (runningRecord "f" ProcessingStage.diarization 0))
            (failedRecord "f" ProcessingStage.diarization
              "Speaker diarization failed" 0),
          forwarded := [],
          events := [runningRecord "f" ProcessingStage.diarization 0,
            failedRecord "f" ProcessingStage.diarization
              "Speaker diarization failed" 0],
          collaboratorCalled := true }) ∧
    ((transcription_step (fun _ => none) c3Store "f" 0).store "f"
          ProcessingStage.transcription =
        some { file_path := "f", stage := ProcessingStage.transcription,
               status := "completed", progress := 1,
               result := some (StageResult.transcriptions []), timestamp := 0 } ∧
      (transcription_step (fun _ => none) c3Store "f" 0).forwarded = ["f"]) :=
  ⟨⟨by decide, by decide,
      C3_collaborator_failure_handling.1 (fun _ => none) emptyStore "f" 0
        (by decide) (by decide)⟩,
    ⟨rfl, by decide,
      C3_collaborator_failure_handling.2.1 (fun _ => none) exStore "f" 0
        extractDoneRec (by decide) rfl (by decide) rfl⟩,
    ⟨rfl, rfl,
      C3_collaborator_failure_handling.2.2.1 (fun _ _ _ => none) c7Store "f" 0
        transcCompletedRec extractFailedRec [] (by decide) rfl (by decide)
        (by decide) rfl (by decide)⟩,
    C3_collaborator_failure_handling.2.2.2.1 (fun _ => none) exStore "f" 0
      extractDoneRec (by decide) rfl (by decide) (by decide),
    C3_collaborator_failure_handling.2.2.2.2 (fun _ => none) c3Store "f" 0
      c3VadRec ["s0.wav"] (by decide) rfl (by decide) (by decide) (by decide)⟩

theorem C8_save_state_swallows_io_error_counterexample :
    (save_state emptyStore extractDoneRec false).2 = none ∧
    (save_state emptyStore extractDoneRec false).1 "f" ProcessingStage.extract =
      none :=
  ⟨rfl, rfl⟩

/-- Claim C8 (amended): save_state catches every exception raised by the
write and only logs it (streaming.py lines 191-192): the caller observes no
error whether or not the I/O succeeded, and on failure the store is simply
unchanged, so a stage worker cannot observe the failed persist and cannot
treat it as a stage failure. -/
theorem C8_save_state_error_reporting :
    (∀ (store : Store) (state : ProcessingState) (ioOk : Bool),
      (save_state store state ioOk).2 = none) ∧
    (∀ (store : Store) (state : ProcessingState) (fp : String)
        (stage : ProcessingStage),
      (save_state store state false).1 fp stage = store fp stage) := by
  constructor
  · intro store state ioOk
    cases ioOk <;> rfl
  · intro store state fp stage
    rfl

/-- Claim C6: with the configured accelerator list (cuda:0, cuda:1) the
pipeline starts exactly one transcription worker thread per device entry,
but every worker evaluates gpu_devices[0] as its device (streaming.py line
386, marked Simplified for now), so both workers bind cuda:0, cuda:1 is
bound by no worker, and the devices are not distinct: the exclusive
one-worker-per-device ownership the spec states does not hold. -/
theorem C6_transcription_device_binding :
    start_workers_transcription_devices ["cuda:0", "cuda:1"] =
      ["cuda:0", "cuda:0"] ∧
    (start_workers_transcription_devices ["cuda:0", "cuda:1"]).length = 2 ∧
    "cuda:1" ∉ start_workers_transcription_devices ["cuda:0", "cuda:1"] ∧
    ¬(start_workers_transcription_devices ["cuda:0", "cuda:1"]).Nodup := by
  refine ⟨rfl, rfl, by decide, by decide⟩

/-- A completed EXPORT record with an empty final result. -/
def exportDoneRec : ProcessingState :=
  { file_path := "f", stage := ProcessingStage.exportStage,
    status := "completed", progress := 1,
    result := some (StageResult.alignedSegments []) }

/-- A store holding only the completed EXPORT record. -/
def exportDoneStore : Store := fun fp stage =>
  if fp = "f" ∧ stage = ProcessingStage.exportStage then some exportDoneRec
  else none

/-- A store history in which the EXPORT record becomes completed at second
350, later than the fixed 300 second budget of process_file but well within
a caller-supplied timeout of 400 seconds. -/
def lateStores : Nat → Store := fun n =>
  if 350 ≤ n then exportDoneStore else emptyStore

theorem C9_no_caller_timeout_counterexample :
    process_file lateStores "f" = none ∧
    runToCompletion lateStores "f" 400 =
      some (some (StageResult.alignedSegments [])) := by
  constructor
  · decide
  · decide

theorem process_file_loop_of_not_completed (stores : Nat → Store)
    (fp : String) :
    ∀ (fuel tick : Nat),
      (∀ n, tick ≤ n → n < tick + fuel →
        isCompleted (load_state (stores n) fp ProcessingStage.exportStage) = false) →
      process_file_loop stores fp tick fuel = none := by
  intro fuel
  induction fuel with
  | zero => intro tick _; rfl
  | succ fuel ih =>
    intro tick h
    have htick : isCompleted (load_state (stores tick) fp ProcessingStage.exportStage) = false :=
      h tick (Nat.le_refl tick) (by omega)
    rw [process_file_loop]
    cases hload : load_state (stores tick) fp ProcessingStage.exportStage with
    | none => exact ih (tick + 1) fun n h1 h2 => h n (by omega) (by omega)
    | some st =>
      rw [hload] at htick
      have hst : ¬st.status = "completed" := by simpa [isCompleted] using htick
      simp only [hst, if_false]
      exact ih (tick + 1) fun n h1 h2 => h n (by omega) (by omega)

theorem process_file_loop_of_completed (stores : Nat → Store) (fp : String) :
    ∀ (fuel tick n : Nat) (st : ProcessingState),
      tick ≤ n → n < tick + fuel →
      load_state (stores n) fp ProcessingStage.exportStage = some st →
      st.status = "completed" →
      (∀ m, tick ≤ m → m < n →
        isCompleted (load_state (stores m) fp ProcessingStage.exportStage) = false) →
      process_file_loop stores fp tick fuel = st.result := by
  intro fuel
  induction fuel with
  | zero => intro tick n st h1 h2 _ _ _; omega
  | succ fuel ih =>
    intro tick n st h1 h2 hload hst hbefore
    rw [process_file_loop]
    by_cases htn : tick = n
    · subst htn
      rw [hload]
      simp [hst]
    · have htick : isCompleted (load_state (stores tick) fp ProcessingStage.exportStage) = false :=
        hbefore tick (Nat.le_refl tick) (by omega)
      cases hl : load_state (stores tick) fp ProcessingStage.exportStage with
      | none =>
        exact ih (tick + 1) n st (by omega) (by omega) hload hst
          fun m hm1 hm2 => hbefore m (by omega) hm2
      | some st' =>
        rw [hl] at htick
        have hst' : ¬st'.status = "completed" := by simpa [isCompleted] using htick
        simp only [hst', if_false]
        exact ih (tick + 1) n st (by omega) (by omega) hload hst
          fun m hm1 hm2 => hbefore m (by omega) hm2

/-- Claim C9 (amended): process_file takes no caller-supplied timeout: it
polls the (identity, EXPORT) record once per second against the fixed 300
second budget max_wait_time, returning the stored result of the first tick
whose EXPORT record is completed, and None when no tick below 300 has one;
None is also what a completed record with an absent result would return, so
the timeout signal is not distinguishable from that edge case. -/
theorem C9_process_file_fixed_timeout :
    (∀ (stores : Nat → Store) (fp : String),
      (∀ n, n < max_wait_time →
        isCompleted (load_state (stores n) fp ProcessingStage.exportStage) = false) →
      process_file stores fp = none) ∧
    (∀ (stores : Nat → Store) (fp : String) (n : Nat) (st : ProcessingState),
      n < max_wait_time →
      load_state (stores n) fp ProcessingStage.exportStage = some st →
      st.status = "completed" →
      (∀ m, m < n →
        isCompleted (load_state (stores m) fp ProcessingStage.exportStage) = false) →
      process_file stores fp = st.result) := by
  constructor
  · intro stores fp h
    exact process_file_loop_of_not_completed stores fp max_wait_time 0
      fun n _ h2 => h n (by omega)
  · intro stores fp n st hn hload hst hbefore
    exact process_file_loop_of_completed stores fp max_wait_time 0 n st
      (Nat.zero_le n) (by omega) hload hst fun m _ hm => hbefore m hm

theorem C9_process_file_fixed_timeout_witness :
    process_file (fun _ => emptyStore) "f" = none ∧
    (0 < max_wait_time ∧
      load_state ((fun (_ : Nat) => exportDoneStore) 0) "f"
          ProcessingStage.exportStage = some exportDoneRec ∧
      exportDoneRec.status = "completed" ∧
      process_file (fun _ => exportDoneStore) "f" = exportDoneRec.result) :=
  ⟨C9_process_file_fixed_timeout.1 (fun _ => emptyStore) "f" (fun n _ => rfl),
    by decide, by decide, by decide,
    C9_process_file_fixed_timeout.2 (fun _ => exportDoneStore) "f" 0
      exportDoneRec (by decide) rfl (by decide)
      (fun m hm => absurd hm (Nat.not_lt_zero m))⟩

/-- A completed VAD record whose segment list is empty: no speech detected. -/
def c5VadRec : ProcessingState :=
  { file_path := "f", stage := ProcessingStage.vad_segmentation,
    status := "completed", progress := 1,
    result := some (StageResult.segmentPaths []) }

/-- A store where extraction and VAD are completed, the VAD result empty. -/
def c5Store : Store := fun fp stage =>
  if fp = "f" ∧ stage = ProcessingStage.extract then some extractDoneRec
  else if fp = "f" ∧ stage = ProcessingStage.vad_segmentation then some c5VadRec
  else none

/-- The pipeline state after the transcription worker processes the
empty-speech file (the transcriber is never called on an empty list). -/
def c5AfterTranscription : StepOut :=
  transcription_step (fun _ => none) c5Store "f" 0

/-- The pipeline state after the alignment worker then processes the token,
with an aligner that succeeds on the empty input with the empty aligned
list. -/
def c5AfterAlignment : StepOut :=
  alignment_step (fun _ _ _ => some []) c5AfterTranscription.store "f" 0

theorem C5_empty_speech_counterexample :
    c5Store "f" ProcessingStage.vad_segmentation = some c5VadRec ∧
    c5VadRec.result = some (StageResult.segmentPaths []) ∧
    c5AfterTranscription.store "f" ProcessingStage.transcription =
      some { file_path := "f", stage := ProcessingStage.transcription,
             status := "completed", progress := 1,
             result := some (StageResult.transcriptions []), timestamp := 0 } ∧
    c5AfterTranscription.forwarded = ["f"] ∧
    c5AfterAlignment.store "f" ProcessingStage.alignment =
      some (failedRecord "f" ProcessingStage.alignment
        "Word alignment failed" 0) ∧
    c5AfterAlignment.forwarded = [] ∧
    c5AfterAlignment.store "f" ProcessingStage.merge_segments = none ∧
    c5AfterAlignment.store "f" ProcessingStage.exportStage = none := by
  refine ⟨rfl, rfl, by decide, by decide, by decide, by decide, by decide,
    by decide⟩

/-- Claim C5 (amended): for a file whose completed SegmentSpeech record holds
an empty segment list, Transcribe completes with an empty transcription list
and forwards; but the Align worker tests the aligner result with plain
truthiness, so when the aligner yields the empty aligned list for the empty
input, Align writes a failed record (error Word alignment failed) and does
not forward the token: the Merge and Export records are never written and
the pipeline does not reach an empty final result. -/
theorem C5_empty_speech_stalls_at_alignment :
    ∀ (ftr : String → Option TranscriptionResult)
      (fal : List TranscriptionSegment → Option StageResult → Option String →
        Option (List AlignedSegment))
      (store : Store) (fp : String) (t : Rat) (vs ex : ProcessingState),
      isCompleted (load_state store fp ProcessingStage.transcription) = false →
      isCompleted (load_state store fp ProcessingStage.alignment) = false →
      load_state store fp ProcessingStage.vad_segmentation = some vs →
      vs.status = "completed" →
      vs.result = some (StageResult.segmentPaths []) →
      load_state store fp ProcessingStage.extract = some ex →
      fal [] ex.result none = some [] →
      (transcription_step ftr store fp t).store fp ProcessingStage.transcription =
          some { file_path := fp, stage := ProcessingStage.transcription,
                 status := "completed", progress := 1,
                 result := some (StageResult.transcriptions []), timestamp := t } ∧
        (transcription_step ftr store fp t).forwarded = [fp] ∧
        (alignment_step fal (transcription_step ftr store fp t).store fp t).store
            fp ProcessingStage.alignment =
          some (failedRecord fp ProcessingStage.alignment
            "Word alignment failed" t) ∧
        (alignment_step fal (transcription_step ftr store fp t).store fp t).forwarded =
          [] ∧
        (alignment_step fal (transcription_step ftr store fp t).store fp t).store
            fp ProcessingStage.merge_segments =
          load_state store fp ProcessingStage.merge_segments ∧
        (alignment_step fal (transcription_step ftr store fp t).store fp t).store
            fp ProcessingStage.exportStage =
          load_state store fp ProcessingStage.exportStage := by
  intro ftr fal store fp t vs ex h1 h2 hv hst hres hex hal
  have hstep : transcription_step ftr store fp t =
      { store := Store.put (Store.put store
            (runningRecord fp ProcessingStage.transcription t))
          { file_path := fp, stage := ProcessingStage.transcription,
            status := "completed", progress := 1,
            result := some (StageResult.transcriptions []), timestamp := t },
        forwarded := [fp],
        events := [runningRecord fp ProcessingStage.transcription t,
          { file_path := fp, stage := ProcessingStage.transcription,
            status := "completed", progress := 1,
            result := some (StageResult.transcriptions []), timestamp := t }],
        collaboratorCalled := false } := by
    simp [transcription_step, h1, hv, hst, hres, transcription_loop,
      runningRecord]
  simp only [load_state] at h2 hex
  rw [hstep]
  refine ⟨by simp [Store.put], rfl, ?_, ?_, ?_, ?_⟩
  all_goals
    simp [alignment_step, load_state, Store.put, h2, hex, runningRecord,
      failedRecord, pickLanguage, hal, truthyList]

theorem C5_empty_speech_stalls_at_alignment_witness :
    (isCompleted (load_state c5Store "f" ProcessingStage.transcription) = false ∧
      isCompleted (load_state c5Store "f" ProcessingStage.alignment) = false ∧
      load_state c5Store "f" ProcessingStage.vad_segmentation = some c5VadRec ∧
      c5VadRec.status = "completed" ∧
      c5VadRec.result = some (StageResult.segmentPaths []) ∧
      load_state c5Store "f" ProcessingStage.extract = some extractDoneRec) ∧
    (c5AfterTranscription.store "f" ProcessingStage.transcription =
        some { file_path := "f", stage := ProcessingStage.transcription,
               status := "completed", progress := 1,
               result := some (StageResult.transcriptions []), timestamp := 0 } ∧
      c5AfterTranscription.forwarded = ["f"] ∧
      c5AfterAlignment.store "f" ProcessingStage.alignment =
        some (failedRecord "f" ProcessingStage.alignment
          "Word alignment failed" 0) ∧
      c5AfterAlignment.forwarded = [] ∧
      c5AfterAlignment.store "f" ProcessingStage.merge_segments =
        load_state c5Store "f" ProcessingStage.merge_segments ∧
      c5AfterAlignment.store "f" ProcessingStage.exportStage =
        load_state c5Store "f" ProcessingStage.exportStage) :=
  ⟨⟨by decide, by decide, rfl, by decide, by decide, rfl⟩,
    C5_empty_speech_stalls_at_alignment (fun _ => none) (fun _ _ _ => some [])
      c5Store "f" 0 c5VadRec extractDoneRec (by decide) (by decide) rfl
      (by decide) (by decide) rfl rfl⟩

theorem isCompleted_some (st : ProcessingState) :
    isCompleted (some st) = decide (st.status = "completed") := rfl

theorem isCompleted_none : isCompleted none = false := rfl

/-- A store where all seven stage records for file f are completed: the
resubmission scenario of spec section 8 (resume-without-recompute). -/
def allDoneStore : Store := fun fp stage =>
  if fp = "f" then
    match stage with
    | ProcessingStage.extract => some extractDoneRec
    | ProcessingStage.vad_segmentation => some c5VadRec
    | ProcessingStage.transcription => some transcCompletedRec
    | ProcessingStage.alignment => some tieAlignRec
    | ProcessingStage.diarization => some tieDiarRec
    | ProcessingStage.merge_segments => some (mergeDoneRecord "f" 0 [])
    | ProcessingStage.exportStage => some exportDoneRec
  else none

/-- Concrete collaborators for the resubmission scenario: the preprocessor
succeeds (it will be invoked again), the others are never reached. -/
def c1Collabs : Collaborators :=
  { process_audio_pipeline := fun _ => some "b.wav",
    segment_audio := fun _ => none,
    transcribe := fun _ => none,
    align_words := fun _ _ _ => none,
    diarize := fun _ => none }

theorem C1_resubmission_reruns_extraction_counterexample :
    isCompleted (allDoneStore "f" ProcessingStage.extract) = true ∧
    isCompleted (allDoneStore "f" ProcessingStage.vad_segmentation) = true ∧
    isCompleted (allDoneStore "f" ProcessingStage.transcription) = true ∧
    isCompleted (allDoneStore "f" ProcessingStage.alignment) = true ∧
    isCompleted (allDoneStore "f" ProcessingStage.diarization) = true ∧
    isCompleted (allDoneStore "f" ProcessingStage.merge_segments) = true ∧
    isCompleted (allDoneStore "f" ProcessingStage.exportStage) = true ∧
    start_processing allDoneStore "f" 1 "f" ProcessingStage.extract =
      some { file_path := "f", stage := ProcessingStage.extract,
             status := "pending", progress := 0, timestamp := 1 } ∧
    (run_pipeline c1Collabs true allDoneStore "f" 1).extractCalled = true := by
  refine ⟨by decide, by decide, by decide, by decide, by decide, by decide,
    by decide, by decide, by decide⟩

/-- Claim C1 (amended): submitting a file whose seven StageRecords are all
completed makes the token traverse SegmentSpeech, Transcribe, Align, Diarize
and Merge through the idempotent skip path (none of their collaborators is
invoked), reach Export and fire the completion callback with the stored
Merge result - but start_processing first overwrites the Extract record with
a pending one, so the Extract worker does not skip: the preprocessor
collaborator is invoked again for the identity (and must succeed again for
the token to move on). -/
theorem C1_resubmission_skip_path :
    ∀ (C : Collaborators) (enabled : Bool) (store : Store) (fp : String)
      (t : Rat) (mrec : ProcessingState),
      isCompleted (load_state store fp ProcessingStage.extract) = true →
      isCompleted (load_state store fp ProcessingStage.exportStage) = true →
      truthyStr (C.process_audio_pipeline fp) = true →
      isCompleted (load_state store fp ProcessingStage.vad_segmentation) = true →
      isCompleted (load_state store fp ProcessingStage.transcription) = true →
      isCompleted (load_state store fp ProcessingStage.alignment) = true →
      (enabled = true →
        isCompleted (load_state store fp ProcessingStage.diarization) = true) →
      load_state store fp ProcessingStage.merge_segments = some mrec →
      mrec.status = "completed" →
      (run_pipeline C enabled store fp t).extractCalled = true ∧
        (run_pipeline C enabled store fp t).vadCalled = false ∧
        (run_pipeline C enabled store fp t).transcribeCalled = false ∧
        (run_pipeline C enabled store fp t).alignCalled = false ∧
        (run_pipeline C enabled store fp t).diarizeCalled = false ∧
        (run_pipeline C enabled store fp t).completions = [(fp, mrec.result)] ∧
        (run_pipeline C enabled store fp t).store fp ProcessingStage.exportStage =
          some { file_path := fp, stage := ProcessingStage.exportStage,
                 status := "completed", progress := 1, result := mrec.result,
                 timestamp := t } := by
  intro C enabled store fp t mrec he hx hpre h2 h3 h4 himp hm hmst
  simp only [load_state] at h2 h3 h4 himp hm
  cases enabled with
  | false =>
    simp [run_pipeline, start_processing, extraction_step, vad_step,
      transcription_step, alignment_step, diarization_step, merge_step,
      export_step, load_state, Store.put, isCompleted_some, isCompleted_none,
      hpre, h2, h3, h4, hm, hmst]
  | true =>
    have hd := himp rfl
    simp [run_pipeline, start_processing, extraction_step, vad_step,
      transcription_step, alignment_step, diarization_step, merge_step,
      export_step, load_state, Store.put, isCompleted_some, isCompleted_none,
      hpre, h2, h3, h4, hd, hm, hmst]

theorem C1_resubmission_skip_path_witness :
    (isCompleted (load_state allDoneStore "f" ProcessingStage.extract) = true ∧
      isCompleted (load_state allDoneStore "f" ProcessingStage.exportStage) = true ∧
      truthyStr (c1Collabs.process_audio_pipeline "f") = true ∧
      isCompleted (load_state allDoneStore "f" ProcessingStage.vad_segmentation) = true ∧
      isCompleted (load_state allDoneStore "f" ProcessingStage.transcription) = true ∧
      isCompleted (load_state allDoneStore "f" ProcessingStage.alignment) = true ∧
      isCompleted (load_state allDoneStore "f" ProcessingStage.diarization) = true ∧
      load_state allDoneStore "f" ProcessingStage.merge_segments =
        some (mergeDoneRecord "f" 0 []) ∧
      (mergeDoneRecord "f" 0 []).status = "completed") ∧
    ((run_pipeline c1Collabs true allDoneStore "f" 1).extractCalled = true ∧
      (run_pipeline c1Collabs true allDoneStore "f" 1).vadCalled = false ∧
      (run_pipeline c1Collabs true allDoneStore "f" 1).transcribeCalled = false ∧
      (run_pipeline c1Collabs true allDoneStore "f" 1).alignCalled = false ∧
      (run_pipeline c1Collabs true allDoneStore "f" 1).diarizeCalled = false ∧
      (run_pipeline c1Collabs true allDoneStore "f" 1).completions =
        [("f", (mergeDoneRecord "f" 0 []).result)] ∧
      (run_pipeline c1Collabs true allDoneStore "f" 1).store "f"
          ProcessingStage.exportStage =
        some { file_path := "f", stage := ProcessingStage.exportStage,
               status := "completed", progress := 1,
               result := (mergeDoneRecord "f" 0 []).result, timestamp := 1 }) :=
  ⟨⟨by decide, by decide, by decide, by decide, by decide, by decide,
      by decide, rfl, by decide⟩,
    C1_resubmission_skip_path c1Collabs true allDoneStore "f" 1
      (mergeDoneRecord "f" 0 []) (by decide) (by decide) (by decide)
      (by decide) (by decide) (by decide) (fun _ => by decide) rfl (by decide)⟩
